import Mathlib

/-
  Shallow embedding of src/vlc_gnome_suspend_inhibit.py.

  The gsettings store is modelled by a `World`: the current value of every
  key, per-operation success oracles (`getOk`, `setOk`), and a trace `log`
  of every gsettings invocation actually attempted (a call is logged even
  when it fails, since the subprocess did run).  The script's global
  variables `original_ac_timeout`, `original_battery_timeout` and
  `settings_changed_by_script` form the `ToggleState`; the D-Bus-facing
  globals (`vlc_service_name`, `vlc_proxy`, `discovery_timer_id`) together
  with the set of live GLib timeout sources form the `AppState`.
-/

namespace VlcInhibit

/-- gsettings key for the AC-power sleep timeout (`GSETTINGS_KEY_AC`). -/
def GSETTINGS_KEY_AC : String := "sleep-inactive-ac-timeout"

/-- gsettings key for the battery-power sleep timeout (`GSETTINGS_KEY_BATTERY`). -/
def GSETTINGS_KEY_BATTERY : String := "sleep-inactive-battery-timeout"

/-- Value written to disable autosuspend (`DISABLED_TIMEOUT = "0"`). -/
def DISABLED_TIMEOUT : String := "0"

/-- One gsettings invocation, as recorded in the world trace. -/
inductive GsOp where
  | get (key : String)
  | set (key value : String)
deriving DecidableEq, Repr

/-- External gsettings store together with success oracles and the trace of
attempted operations. -/
structure World where
  store : String → String
  getOk : String → Bool
  setOk : String → String → Bool
  log : List GsOp

/-- Pointwise update of the store at one key. -/
def setStore (st : String → String) (key value : String) : String → String :=
  fun k => if k = key then value else st k

/-- get_current_timeout: runs gsettings get; returns the value on success,
None on failure.  The invocation is traced either way. -/
def get_current_timeout (w : World) (key : String) : Option String × World :=
  if w.getOk key then
    (some (w.store key), { w with log := w.log ++ [GsOp.get key] })
  else
    (none, { w with log := w.log ++ [GsOp.get key] })

/-- set_timeout: runs gsettings set; returns the (stripped, empty) stdout on
success, None on failure.  The invocation is traced either way. -/
def set_timeout (w : World) (key value : String) : Option String × World :=
  if w.setOk key value then
    (some "", { w with store := setStore w.store key value,
                       log := w.log ++ [GsOp.set key value] })
  else
    (none, { w with log := w.log ++ [GsOp.set key value] })

/-- The script's suspend-policy globals: stored originals and the
`settings_changed_by_script` flag. -/
structure ToggleState where
  original_ac_timeout : Option String
  original_battery_timeout : Option String
  settings_changed_by_script : Bool
deriving DecidableEq, Repr

/-- The write half of `disable_gnome_autosuspend` (source lines 104-126):
for each key, if the stored original differs from the disabled value the
write is attempted and the flag set on success; otherwise the write is
skipped and the flag set anyway. -/
def disableWrites (w : World) (s : ToggleState) : World × ToggleState :=
  let acStep : World × ToggleState :=
    if s.original_ac_timeout ≠ some DISABLED_TIMEOUT then
      match set_timeout w GSETTINGS_KEY_AC DISABLED_TIMEOUT with
      | (some _, w1) => (w1, { s with settings_changed_by_script := true })
      | (none, w1) => (w1, s)
    else
      (w, { s with settings_changed_by_script := true })
  let w1 := acStep.1
  let s1 := acStep.2
  if s1.original_battery_timeout ≠ some DISABLED_TIMEOUT then
    match set_timeout w1 GSETTINGS_KEY_BATTERY DISABLED_TIMEOUT with
    | (some _, w2) => (w2, { s1 with settings_changed_by_script := true })
    | (none, w2) => (w2, s1)
  else
    (w1, { s1 with settings_changed_by_script := true })

/-- disable_gnome_autosuspend (source lines 83-126).  On a first disable the
current values of both keys are read; if either read fails the function
returns with no write and no state change.  Otherwise the originals are
stored and the writes of `disableWrites` run. -/
def disable_gnome_autosuspend (w : World) (s : ToggleState) : World × ToggleState :=
  if s.settings_changed_by_script = false then
    let rac := get_current_timeout w GSETTINGS_KEY_AC
    let rb := get_current_timeout rac.2 GSETTINGS_KEY_BATTERY
    match rac.1, rb.1 with
    | some ca, some cb =>
        disableWrites rb.2
          { s with original_ac_timeout := some ca, original_battery_timeout := some cb }
    | _, _ => (rb.2, s)
  else
    disableWrites w s

/-- restore_gnome_autosuspend (source lines 129-171).  No-op when
`settings_changed_by_script` is false; otherwise each stored original is
written back and cleared (cleared even when the write fails), and the flag
is reset to false on both branches of the final conditional. -/
def restore_gnome_autosuspend (w : World) (s : ToggleState) : World × ToggleState :=
  if s.settings_changed_by_script = false then
    (w, s)
  else
    let acStep : World × ToggleState × Bool :=
      match s.original_ac_timeout with
      | some v =>
        match set_timeout w GSETTINGS_KEY_AC v with
        | (some _, w1) => (w1, { s with original_ac_timeout := none }, true)
        | (none, w1) => (w1, { s with original_ac_timeout := none }, false)
      | none => (w, s, false)
    let w1 := acStep.1
    let s1 := acStep.2.1
    let restored1 := acStep.2.2
    let bStep : World × ToggleState × Bool :=
      match s1.original_battery_timeout with
      | some v =>
        match set_timeout w1 GSETTINGS_KEY_BATTERY v with
        | (some _, w2) => (w2, { s1 with original_battery_timeout := none }, true)
        | (none, w2) => (w2, { s1 with original_battery_timeout := none }, restored1)
      | none => (w1, s1, restored1)
    let w2 := bStep.1
    let s2 := bStep.2.1
    let restored2 := bStep.2.2
    if restored2 then
      (w2, { s2 with settings_changed_by_script := false })
    else
      (w2, { s2 with settings_changed_by_script := false })

/-- update_autosuspend_state (source lines 253-264): Playing disables,
Paused and Stopped restore, every other status also restores. -/
def update_autosuspend_state (w : World) (s : ToggleState)
    (playback_status : String) : World × ToggleState :=
  if playback_status = "Playing" then
    disable_gnome_autosuspend w s
  else if playback_status = "Paused" ∨ playback_status = "Stopped" then
    restore_gnome_autosuspend w s
  else
    restore_gnome_autosuspend w s

/-- D-Bus signal name the router listens for (`PROPERTIES_CHANGED_SIGNAL`). -/
def PROPERTIES_CHANGED_SIGNAL : String := "PropertiesChanged"

/-- Expected GVariant type signature of the signal parameters. -/
def EXPECTED_SIGNAL_PARAM_TYPE : String := "(sa{sv}as)"

/-- MPRIS player interface name (`MPRIS_PLAYER_INTERFACE`). -/
def MPRIS_PLAYER_INTERFACE : String := "org.mpris.MediaPlayer2.Player"

/-- Name of the watched property (`MPRIS_PLAYBACK_STATUS_PROPERTY`). -/
def MPRIS_PLAYBACK_STATUS_PROPERTY : String := "PlaybackStatus"

/-- D-Bus-facing globals of the script plus the pool of live GLib timeout
sources.  `armed` lists the ids of currently armed sources and `nextId`
feeds fresh ids to `timeout_add_seconds` (GLib source ids are positive). -/
structure AppState where
  toggle : ToggleState
  vlc_service_name : Option String
  vlc_proxy : Option Nat
  discovery_timer_id : Option Nat
  armed : List Nat
  nextId : Nat
deriving DecidableEq, Repr

/-- GLib.timeout_add_seconds: arms a fresh, positive source id. -/
def timeout_add_seconds (a : AppState) : Nat × AppState :=
  let i := a.nextId + 1
  (i, { a with armed := a.armed ++ [i], nextId := i })

/-- GLib.source_remove: cancels the source with the given id. -/
def source_remove (a : AppState) (i : Nat) : AppState :=
  { a with armed := a.armed.filter (fun j => j != i) }

/-- Python truthiness of the `discovery_timer_id` global (None and 0 are
falsy). -/
def glibTruthyId : Option Nat → Bool
  | none => false
  | some n => n != 0

/-- Python truthiness of the `vlc_service_name` global (None and the empty
string are falsy). -/
def pyTruthyName : Option String → Bool
  | none => false
  | some s => s != ""

/-- start_discovery_timer (source lines 433-443): arms a new timer only
when no timer id is held and no service name is held. -/
def start_discovery_timer (a : AppState) : AppState :=
  if a.discovery_timer_id = none ∧ a.vlc_service_name = none then
    let r := timeout_add_seconds a
    { r.2 with discovery_timer_id := some r.1 }
  else
    a

/-- handle_vlc_disappearance (source lines 331-351): returns at once when
`vlc_service_name` is None; otherwise restores the policy, clears the
service name and proxy, removes a (truthy) running timer, and re-arms
discovery. -/
def handle_vlc_disappearance (w : World) (a : AppState) : World × AppState :=
  if a.vlc_service_name = none then
    (w, a)
  else
    let r := restore_gnome_autosuspend w a.toggle
    let a1 : AppState :=
      { a with toggle := r.2, vlc_service_name := none, vlc_proxy := none }
    let a2 : AppState :=
      if glibTruthyId a1.discovery_timer_id then
        { source_remove a1 (a1.discovery_timer_id.getD 0) with discovery_timer_id := none }
      else
        a1
    (r.1, start_discovery_timer a2)

/-- The session bus, reduced to the name-owner lookup the proxy validity
check performs; `none` stands for both an absent owner and a lookup error. -/
structure Bus where
  nameOwner : Nat → Option String

/-- is_proxy_valid (source lines 320-329): false for a missing proxy, else
true exactly when the name-owner lookup yields an owner. -/
def is_proxy_valid (bus : Bus) (proxy : Option Nat) : Bool :=
  match proxy with
  | none => false
  | some p => (bus.nameOwner p).isSome

/-- A value stored under a key of the changed-properties dictionary: a bare
Python string, a GLib.Variant of type s, a GLib.Variant of another type, or
a Python value of some other type. -/
inductive GVal where
  | str (s : String)
  | variantS (s : String)
  | variantOther (typeString : String)
  | otherPy (typeName : String)
deriving DecidableEq, Repr

/-- The unpacked PropertiesChanged payload together with its GVariant type
string; the triple is meaningful when `typeString` is the expected one. -/
structure SignalParams where
  typeString : String
  iface : String
  changed : List (String × GVal)
  invalidated : List String
deriving DecidableEq, Repr

/-- Lookup in the changed-properties dictionary. -/
def dictLookup (d : List (String × GVal)) (key : String) : Option GVal :=
  match d with
  | [] => none
  | (k, v) :: rest => if k = key then some v else dictLookup rest key

/-- on_properties_changed_signal (source lines 175-250).  The third
component of the result counts warning-level log lines emitted by the
handler on this delivery. -/
def on_properties_changed_signal (bus : Bus) (w : World) (a : AppState)
    (signal_name : String) (parameters : Option SignalParams) :
    World × AppState × Nat :=
  if signal_name ≠ PROPERTIES_CHANGED_SIGNAL then
    (w, a, 0)
  else if pyTruthyName a.vlc_service_name = false then
    (w, a, 0)
  else
    match parameters with
    | none => (w, a, 1)
    | some p =>
      if p.typeString = EXPECTED_SIGNAL_PARAM_TYPE then
        if p.iface ≠ MPRIS_PLAYER_INTERFACE then
          (w, a, 0)
        else if is_proxy_valid bus a.vlc_proxy = false then
          let r := handle_vlc_disappearance w a
          (r.1, r.2, 1)
        else if p.invalidated.contains MPRIS_PLAYBACK_STATUS_PROPERTY then
          let r := handle_vlc_disappearance w a
          (r.1, r.2, 1)
        else
          match dictLookup p.changed MPRIS_PLAYBACK_STATUS_PROPERTY with
          | some (GVal.str s) =>
            if s ≠ "" then
              let r := update_autosuspend_state w a.toggle s
              (r.1, { a with toggle := r.2 }, 0)
            else
              (w, a, 0)
          | some (GVal.variantS s) =>
            if s ≠ "" then
              let r := update_autosuspend_state w a.toggle s
              (r.1, { a with toggle := r.2 }, 0)
            else
              (w, a, 0)
          | some _ => (w, a, 1)
          | none => (w, a, 0)
      else
        (w, a, 1)

/-- A store holding ordinary timeouts, with every gsettings call succeeding. -/
def sampleWorld : World :=
  { store := fun k => if k = GSETTINGS_KEY_BATTERY then "600" else "900",
    getOk := fun _ => true, setOk := fun _ _ => true, log := [] }

/-- A store in which both timeouts are already at the disabled value. -/
def zeroWorld : World :=
  { store := fun _ => "0", getOk := fun _ => true, setOk := fun _ _ => true, log := [] }

/-- A store whose reads all fail. -/
def failReadWorld : World :=
  { store := fun _ => "900", getOk := fun _ => false, setOk := fun _ _ => true, log := [] }

/-- A store whose writes all fail. -/
def failWriteWorld : World :=
  { store := fun _ => "900", getOk := fun _ => true, setOk := fun _ _ => false, log := [] }

/-- Toggle state before any disable. -/
def toggleClean : ToggleState :=
  { original_ac_timeout := none, original_battery_timeout := none,
    settings_changed_by_script := false }

/-- Toggle state after a successful disable stored the originals. -/
def toggleHeld : ToggleState :=
  { original_ac_timeout := some "900", original_battery_timeout := some "600",
    settings_changed_by_script := true }

/-- A bus on which every name-owner lookup answers. -/
def sampleBus : Bus := { nameOwner := fun _ => some ":1.42" }

/-- The MPRIS bus name of a running VLC instance. -/
def vlcName : String := "org.mpris.MediaPlayer2.vlc"

/-- App state with no player tracked and no timer armed. -/
def appDisconnected : AppState :=
  { toggle := toggleClean, vlc_service_name := none, vlc_proxy := none,
    discovery_timer_id := none, armed := [], nextId := 0 }

/-- App state connected to VLC, policy currently held disabled. -/
def appConnected : AppState :=
  { toggle := toggleHeld, vlc_service_name := some vlcName, vlc_proxy := some 1,
    discovery_timer_id := none, armed := [], nextId := 0 }

/-- Connected app state that still holds a stray armed discovery timer. -/
def appConnectedStray : AppState :=
  { appConnected with discovery_timer_id := some 7, armed := [7], nextId := 7 }

/-- Payload carrying PlaybackStatus as the bare empty string. -/
def paramsEmptyStatus : SignalParams :=
  { typeString := EXPECTED_SIGNAL_PARAM_TYPE, iface := MPRIS_PLAYER_INTERFACE,
    changed := [(MPRIS_PLAYBACK_STATUS_PROPERTY, GVal.str "")], invalidated := [] }

/-- Payload carrying PlaybackStatus as a Variant of type s holding Playing. -/
def paramsPlaying : SignalParams :=
  { typeString := EXPECTED_SIGNAL_PARAM_TYPE, iface := MPRIS_PLAYER_INTERFACE,
    changed := [(MPRIS_PLAYBACK_STATUS_PROPERTY, GVal.variantS "Playing")],
    invalidated := [] }

/-- Payload whose GVariant type signature is not the expected triple. -/
def paramsBadType : SignalParams :=
  { typeString := "s", iface := MPRIS_PLAYER_INTERFACE, changed := [], invalidated := [] }

/- Helper lemmas shared by the claim theorems. -/

@[simp]
lemma kac_ne_kb : (GSETTINGS_KEY_AC = GSETTINGS_KEY_BATTERY) = False :=
  eq_false (by decide)

@[simp]
lemma kb_ne_kac : (GSETTINGS_KEY_BATTERY = GSETTINGS_KEY_AC) = False :=
  eq_false (by decide)

lemma update_autosuspend_state_eq (w : World) (s : ToggleState) (st : String) :
    update_autosuspend_state w s st =
      if st = "Playing" then disable_gnome_autosuspend w s
      else restore_gnome_autosuspend w s := by
  unfold update_autosuspend_state
  by_cases h : st = "Playing" <;> simp [h]

lemma restore_state_of_flag (w : World) (s : ToggleState)
    (h : s.settings_changed_by_script = true) :
    (restore_gnome_autosuspend w s).2 =
      { original_ac_timeout := none, original_battery_timeout := none,
        settings_changed_by_script := false } := by
  obtain ⟨oa, ob, f⟩ := s
  simp only at h
  subst h
  cases oa <;> cases ob <;>
    simp only [restore_gnome_autosuspend, set_timeout] <;>
    (repeat' split) <;> simp_all

/-- C1: update_autosuspend_state invokes disable_gnome_autosuspend exactly
when the playback-status string is Playing, and invokes
restore_gnome_autosuspend for every other string (Paused, Stopped, or any
unparseable value); no other gateway action is taken. -/
theorem update_autosuspend_state_dispatch (w : World) (s : ToggleState) (st : String) :
    (st = "Playing" → update_autosuspend_state w s st = disable_gnome_autosuspend w s)
  ∧ (st ≠ "Playing" → update_autosuspend_state w s st = restore_gnome_autosuspend w s) := by
  constructor <;> intro h <;> rw [update_autosuspend_state_eq] <;> simp [h]

/-- Witness for C1 at the concrete status Stopped. -/
theorem update_autosuspend_state_dispatch_witness :
    update_autosuspend_state sampleWorld toggleHeld "Stopped" =
      restore_gnome_autosuspend sampleWorld toggleHeld :=
  (update_autosuspend_state_dispatch sampleWorld toggleHeld "Stopped").2 (by decide)

/-- C4: calling restore_gnome_autosuspend while settings_changed_by_script
is false performs no gateway write and leaves the world and the whole
toggle state unchanged. -/
theorem restore_noop_when_flag_false (w : World) (s : ToggleState)
    (h : s.settings_changed_by_script = false) :
    restore_gnome_autosuspend w s = (w, s) := by
  simp [restore_gnome_autosuspend, h]

/-- Witness for C4 on a clean toggle state. -/
theorem restore_noop_when_flag_false_witness :
    restore_gnome_autosuspend sampleWorld toggleClean = (sampleWorld, toggleClean) :=
  restore_noop_when_flag_false sampleWorld toggleClean rfl

/-- C5: after any call to restore_gnome_autosuspend made while
settings_changed_by_script is true, the flag is false, whatever the
outcomes of the restorative writes were. -/
theorem restore_resets_flag (w : World) (s : ToggleState)
    (h : s.settings_changed_by_script = true) :
    (restore_gnome_autosuspend w s).2.settings_changed_by_script = false := by
  rw [restore_state_of_flag w s h]

/-- Witness for C5 with a held toggle state. -/
theorem restore_resets_flag_witness :
    (restore_gnome_autosuspend failReadWorld toggleHeld).2.settings_changed_by_script = false :=
  restore_resets_flag failReadWorld toggleHeld rfl

/-- C10: every call to restore_gnome_autosuspend that passes the
settings_changed_by_script guard leaves both stored originals cleared to
none, whether or not the write attempts succeeded, and resets the flag so
that a subsequent disable_gnome_autosuspend re-reads the current values. -/
theorem restore_clears_originals (w : World) (s : ToggleState)
    (h : s.settings_changed_by_script = true) :
    (restore_gnome_autosuspend w s).2.original_ac_timeout = none
  ∧ (restore_gnome_autosuspend w s).2.original_battery_timeout = none
  ∧ (restore_gnome_autosuspend w s).2.settings_changed_by_script = false := by
  rw [restore_state_of_flag w s h]
  exact ⟨rfl, rfl, rfl⟩

/-- Witness for C10 with a world whose writes fail, showing the originals
are cleared even on failed restorative writes. -/
theorem restore_clears_originals_witness :
    (restore_gnome_autosuspend failWriteWorld toggleHeld).2.original_ac_timeout = none
  ∧ (restore_gnome_autosuspend failWriteWorld toggleHeld).2.original_battery_timeout = none
  ∧ (restore_gnome_autosuspend failWriteWorld toggleHeld).2.settings_changed_by_script = false :=
  restore_clears_originals failWriteWorld toggleHeld rfl

/-- C9: on a first disable (flag false), if reading either key fails,
disable_gnome_autosuspend leaves the toggle state and the store untouched
and the trace shows the two reads and no write. -/
theorem disable_read_failure_atomic (w : World) (s : ToggleState)
    (hf : s.settings_changed_by_script = false)
    (hr : w.getOk GSETTINGS_KEY_AC = false ∨ w.getOk GSETTINGS_KEY_BATTERY = false) :
    (disable_gnome_autosuspend w s).2 = s
  ∧ (disable_gnome_autosuspend w s).1.store = w.store
  ∧ (disable_gnome_autosuspend w s).1.log =
      w.log ++ [GsOp.get GSETTINGS_KEY_AC, GsOp.get GSETTINGS_KEY_BATTERY] := by
  rcases hr with hr | hr <;>
    rcases hb : w.getOk GSETTINGS_KEY_BATTERY with _ | _ <;>
    rcases ha : w.getOk GSETTINGS_KEY_AC with _ | _ <;>
    simp_all [disable_gnome_autosuspend, get_current_timeout, hf]

/-- Witness for C9 on a world whose reads fail. -/
theorem disable_read_failure_atomic_witness :
    (disable_gnome_autosuspend failReadWorld toggleClean).2 = toggleClean
  ∧ (disable_gnome_autosuspend failReadWorld toggleClean).1.store = failReadWorld.store
  ∧ (disable_gnome_autosuspend failReadWorld toggleClean).1.log =
      failReadWorld.log ++ [GsOp.get GSETTINGS_KEY_AC, GsOp.get GSETTINGS_KEY_BATTERY] :=
  disable_read_failure_atomic failReadWorld toggleClean rfl (Or.inl rfl)

/-- C2: from a state the script has not modified, disable followed by
restore returns both policy keys to their pre-disable values, provided
every gsettings read and write in both calls succeeds. -/
theorem disable_restore_roundtrip (w : World) (s : ToggleState)
    (hf : s.settings_changed_by_script = false)
    (hget : ∀ k, w.getOk k = true)
    (hset : ∀ k v, w.setOk k v = true) :
    ((restore_gnome_autosuspend (disable_gnome_autosuspend w s).1
        (disable_gnome_autosuspend w s).2).1.store GSETTINGS_KEY_AC
      = w.store GSETTINGS_KEY_AC)
  ∧ ((restore_gnome_autosuspend (disable_gnome_autosuspend w s).1
        (disable_gnome_autosuspend w s).2).1.store GSETTINGS_KEY_BATTERY
      = w.store GSETTINGS_KEY_BATTERY) := by
  by_cases hA : w.store GSETTINGS_KEY_AC = DISABLED_TIMEOUT <;>
  by_cases hB : w.store GSETTINGS_KEY_BATTERY = DISABLED_TIMEOUT <;>
  simp [disable_gnome_autosuspend, disableWrites, restore_gnome_autosuspend,
        get_current_timeout, set_timeout, setStore, hf, hget, hset, hA, hB]

/-- Witness for C2 on a concrete all-succeeding store. -/
theorem disable_restore_roundtrip_witness :
    ((restore_gnome_autosuspend (disable_gnome_autosuspend sampleWorld toggleClean).1
        (disable_gnome_autosuspend sampleWorld toggleClean).2).1.store GSETTINGS_KEY_AC
      = sampleWorld.store GSETTINGS_KEY_AC)
  ∧ ((restore_gnome_autosuspend (disable_gnome_autosuspend sampleWorld toggleClean).1
        (disable_gnome_autosuspend sampleWorld toggleClean).2).1.store GSETTINGS_KEY_BATTERY
      = sampleWorld.store GSETTINGS_KEY_BATTERY) :=
  disable_restore_roundtrip sampleWorld toggleClean rfl (fun _ => rfl) (fun _ _ => rfl)

/-- C3 counterexample: when both keys already hold the disabled value "0",
a first disable attempts neither write (the trace holds only the two
reads), although it still marks settings_changed_by_script true. -/
theorem disable_skips_write_on_zero_original :
    GsOp.set GSETTINGS_KEY_AC DISABLED_TIMEOUT ∉
      (disable_gnome_autosuspend zeroWorld toggleClean).1.log
  ∧ GsOp.set GSETTINGS_KEY_BATTERY DISABLED_TIMEOUT ∉
      (disable_gnome_autosuspend zeroWorld toggleClean).1.log
  ∧ (disable_gnome_autosuspend zeroWorld toggleClean).2.settings_changed_by_script = true := by
  decide

/-- C3 amended: a disable call that gets past the read step attempts the
inhibit write for exactly the keys whose stored original differs from the
disabled value (keys already at "0" are skipped), and afterwards
settings_changed_by_script is true iff it already was, or a key was
skipped, or an attempted write succeeded. -/
theorem disable_write_attempts (w : World) (s : ToggleState)
    (hlog : w.log = [])
    (hok : s.settings_changed_by_script = true ∨
           (w.getOk GSETTINGS_KEY_AC = true ∧ w.getOk GSETTINGS_KEY_BATTERY = true)) :
    ((GsOp.set GSETTINGS_KEY_AC DISABLED_TIMEOUT ∈ (disable_gnome_autosuspend w s).1.log) ↔
       (if s.settings_changed_by_script then s.original_ac_timeout
        else some (w.store GSETTINGS_KEY_AC)) ≠ some DISABLED_TIMEOUT)
  ∧ ((GsOp.set GSETTINGS_KEY_BATTERY DISABLED_TIMEOUT ∈ (disable_gnome_autosuspend w s).1.log) ↔
       (if s.settings_changed_by_script then s.original_battery_timeout
        else some (w.store GSETTINGS_KEY_BATTERY)) ≠ some DISABLED_TIMEOUT)
  ∧ ((disable_gnome_autosuspend w s).2.settings_changed_by_script = true ↔
       (s.settings_changed_by_script = true
        ∨ (if s.settings_changed_by_script then s.original_ac_timeout
           else some (w.store GSETTINGS_KEY_AC)) = some DISABLED_TIMEOUT
        ∨ (if s.settings_changed_by_script then s.original_battery_timeout
           else some (w.store GSETTINGS_KEY_BATTERY)) = some DISABLED_TIMEOUT
        ∨ (w.setOk GSETTINGS_KEY_AC DISABLED_TIMEOUT = true ∧
           (if s.settings_changed_by_script then s.original_ac_timeout
            else some (w.store GSETTINGS_KEY_AC)) ≠ some DISABLED_TIMEOUT)
        ∨ (w.setOk GSETTINGS_KEY_BATTERY DISABLED_TIMEOUT = true ∧
           (if s.settings_changed_by_script then s.original_battery_timeout
            else some (w.store GSETTINGS_KEY_BATTERY)) ≠ some DISABLED_TIMEOUT))) := by
  obtain ⟨oa, ob, f⟩ := s
  cases f
  · rcases hok with hok | ⟨hga, hgb⟩
    · simp at hok
    · by_cases ha : w.store GSETTINGS_KEY_AC = DISABLED_TIMEOUT <;>
      by_cases hb : w.store GSETTINGS_KEY_BATTERY = DISABLED_TIMEOUT <;>
      rcases hsa : w.setOk GSETTINGS_KEY_AC DISABLED_TIMEOUT with _ | _ <;>
      rcases hsb : w.setOk GSETTINGS_KEY_BATTERY DISABLED_TIMEOUT with _ | _ <;>
      simp_all [disable_gnome_autosuspend, disableWrites, get_current_timeout,
                set_timeout, hlog]
  · by_cases ha : oa = some DISABLED_TIMEOUT <;>
    by_cases hb : ob = some DISABLED_TIMEOUT <;>
    rcases hsa : w.setOk GSETTINGS_KEY_AC DISABLED_TIMEOUT with _ | _ <;>
    rcases hsb : w.setOk GSETTINGS_KEY_BATTERY DISABLED_TIMEOUT with _ | _ <;>
    simp_all [disable_gnome_autosuspend, disableWrites, set_timeout, hlog]

/-- Witness for C3 amended on a first disable over ordinary timeout values. -/
theorem disable_write_attempts_witness :
    ((GsOp.set GSETTINGS_KEY_AC DISABLED_TIMEOUT ∈
        (disable_gnome_autosuspend sampleWorld toggleClean).1.log) ↔
       (if toggleClean.settings_changed_by_script then toggleClean.original_ac_timeout
        else some (sampleWorld.store GSETTINGS_KEY_AC)) ≠ some DISABLED_TIMEOUT)
  ∧ ((GsOp.set GSETTINGS_KEY_BATTERY DISABLED_TIMEOUT ∈
        (disable_gnome_autosuspend sampleWorld toggleClean).1.log) ↔
       (if toggleClean.settings_changed_by_script then toggleClean.original_battery_timeout
        else some (sampleWorld.store GSETTINGS_KEY_BATTERY)) ≠ some DISABLED_TIMEOUT)
  ∧ ((disable_gnome_autosuspend sampleWorld toggleClean).2.settings_changed_by_script = true ↔
       (toggleClean.settings_changed_by_script = true
        ∨ (if toggleClean.settings_changed_by_script then toggleClean.original_ac_timeout
           else some (sampleWorld.store GSETTINGS_KEY_AC)) = some DISABLED_TIMEOUT
        ∨ (if toggleClean.settings_changed_by_script then toggleClean.original_battery_timeout
           else some (sampleWorld.store GSETTINGS_KEY_BATTERY)) = some DISABLED_TIMEOUT
        ∨ (sampleWorld.setOk GSETTINGS_KEY_AC DISABLED_TIMEOUT = true ∧
           (if toggleClean.settings_changed_by_script then toggleClean.original_ac_timeout
            else some (sampleWorld.store GSETTINGS_KEY_AC)) ≠ some DISABLED_TIMEOUT)
        ∨ (sampleWorld.setOk GSETTINGS_KEY_BATTERY DISABLED_TIMEOUT = true ∧
           (if toggleClean.settings_changed_by_script then toggleClean.original_battery_timeout
            else some (sampleWorld.store GSETTINGS_KEY_BATTERY)) ≠ some DISABLED_TIMEOUT))) :=
  disable_write_attempts sampleWorld toggleClean rfl (Or.inr ⟨rfl, rfl⟩)

/-- C6: handle_vlc_disappearance is a no-op when no service name is held;
otherwise it restores the policy, clears the service name and proxy,
cancels the running discovery timer if any, and re-arms discovery, ending
in the Discovering state with exactly one armed discovery timer. -/
theorem handle_vlc_disappearance_spec (w : World) (a : AppState) :
    (a.vlc_service_name = none → handle_vlc_disappearance w a = (w, a))
  ∧ (a.vlc_service_name ≠ none →
     a.discovery_timer_id ≠ some 0 →
     (∀ i ∈ a.armed, a.discovery_timer_id = some i) →
     handle_vlc_disappearance w a =
       ((restore_gnome_autosuspend w a.toggle).1,
        { toggle := (restore_gnome_autosuspend w a.toggle).2,
          vlc_service_name := none, vlc_proxy := none,
          discovery_timer_id := some (a.nextId + 1),
          armed := [a.nextId + 1], nextId := a.nextId + 1 })) := by
  constructor
  · intro h
    simp [handle_vlc_disappearance, h]
  · intro hsvc hpos hinv
    obtain ⟨tg, svc, prx, tid, armed, nid⟩ := a
    simp only at hsvc hpos hinv ⊢
    unfold handle_vlc_disappearance
    rw [if_neg hsvc]
    cases tid with
    | none =>
      have harm : armed = [] := by
        cases armed with
        | nil => rfl
        | cons x xs => exact absurd (hinv x (by simp)) (by simp)
      subst harm
      simp [glibTruthyId, start_discovery_timer, timeout_add_seconds]
    | some n =>
      have hn0 : n ≠ 0 := by
        intro h0
        exact hpos (by rw [h0])
      have harm : armed.filter (fun j => j != n) = [] := by
        rw [List.filter_eq_nil_iff]
        intro i hi
        have hni := hinv i hi
        simp only [Option.some.injEq] at hni
        simp [hni]
      simp [glibTruthyId, hn0, source_remove, harm, start_discovery_timer,
            timeout_add_seconds]

/-- Witness for C6 on a connected state holding a stray armed timer. -/
theorem handle_vlc_disappearance_spec_witness :
    handle_vlc_disappearance sampleWorld appConnectedStray =
      ((restore_gnome_autosuspend sampleWorld appConnectedStray.toggle).1,
       { toggle := (restore_gnome_autosuspend sampleWorld appConnectedStray.toggle).2,
         vlc_service_name := none, vlc_proxy := none,
         discovery_timer_id := some 8, armed := [8], nextId := 8 }) :=
  (handle_vlc_disappearance_spec sampleWorld appConnectedStray).2
    (by decide) (by decide) (by decide)

/-- C7 counterexample: a delivered PropertiesChanged notification with an
absent (malformed) payload, received while no service name is tracked, is
dropped with no warning logged at all. -/
theorem malformed_payload_untracked_no_warning :
    on_properties_changed_signal sampleBus sampleWorld appDisconnected
        PROPERTIES_CHANGED_SIGNAL none
      = (sampleWorld, appDisconnected, 0) := rfl

/-- C7 amended: a delivered PropertiesChanged notification received while a
player identity is tracked, whose payload is absent or whose structural
type differs from the expected triple, makes the handler log exactly one
warning and drop the notification with no gateway action and no state
change. -/
theorem malformed_payload_warned_and_dropped (bus : Bus) (w : World) (a : AppState)
    (ps : Option SignalParams)
    (hname : pyTruthyName a.vlc_service_name = true)
    (hmal : ∀ p, ps = some p → p.typeString ≠ EXPECTED_SIGNAL_PARAM_TYPE) :
    on_properties_changed_signal bus w a PROPERTIES_CHANGED_SIGNAL ps = (w, a, 1) := by
  unfold on_properties_changed_signal
  rw [if_neg (by simp)]
  rw [hname]
  cases ps with
  | none => rfl
  | some p => simp [hmal p rfl]

/-- Witness for C7 amended with a payload of wrong GVariant type. -/
theorem malformed_payload_warned_and_dropped_witness :
    on_properties_changed_signal sampleBus sampleWorld appConnected
        PROPERTIES_CHANGED_SIGNAL (some paramsBadType)
      = (sampleWorld, appConnected, 1) :=
  malformed_payload_warned_and_dropped sampleBus sampleWorld appConnected
    (some paramsBadType) (by decide)
    (by intro p hp; cases hp; decide)

/-- C8 counterexample: a well-formed notification whose changed map holds
PlaybackStatus as the bare empty string is dropped without feeding the
state machine, although feeding the empty string would have changed the
toggle state. -/
theorem empty_status_not_fed :
    on_properties_changed_signal sampleBus sampleWorld appConnected
        PROPERTIES_CHANGED_SIGNAL (some paramsEmptyStatus)
      = (sampleWorld, appConnected, 0)
  ∧ (update_autosuspend_state sampleWorld appConnected.toggle "").2 ≠ appConnected.toggle := by
  constructor
  · rfl
  · decide

/-- C8 amended: a notification that passes the router's earlier checks and
whose changed map holds PlaybackStatus as a bare string or a Variant of
string type with a non-empty value makes the handler feed exactly that
string to update_autosuspend_state. -/
theorem playback_status_fed_to_state_machine (bus : Bus) (w : World) (a : AppState)
    (p : SignalParams) (s : String)
    (hname : pyTruthyName a.vlc_service_name = true)
    (htype : p.typeString = EXPECTED_SIGNAL_PARAM_TYPE)
    (hiface : p.iface = MPRIS_PLAYER_INTERFACE)
    (hproxy : is_proxy_valid bus a.vlc_proxy = true)
    (hinv : p.invalidated.contains MPRIS_PLAYBACK_STATUS_PROPERTY = false)
    (hval : dictLookup p.changed MPRIS_PLAYBACK_STATUS_PROPERTY = some (GVal.str s) ∨
            dictLookup p.changed MPRIS_PLAYBACK_STATUS_PROPERTY = some (GVal.variantS s))
    (hs : s ≠ "") :
    on_properties_changed_signal bus w a PROPERTIES_CHANGED_SIGNAL (some p) =
      ((update_autosuspend_state w a.toggle s).1,
       { a with toggle := (update_autosuspend_state w a.toggle s).2 }, 0) := by
  unfold on_properties_changed_signal
  rw [if_neg (by simp)]
  rw [hname]
  simp only [htype, hiface, hproxy, hinv]
  rcases hval with hval | hval <;> simp [hval, hs]

/-- Witness for C8 amended with a Variant-wrapped Playing status. -/
theorem playback_status_fed_to_state_machine_witness :
    on_properties_changed_signal sampleBus sampleWorld appConnected
        PROPERTIES_CHANGED_SIGNAL (some paramsPlaying) =
      ((update_autosuspend_state sampleWorld appConnected.toggle "Playing").1,
       { appConnected with
         toggle := (update_autosuspend_state sampleWorld appConnected.toggle "Playing").2 }, 0) :=
  playback_status_fed_to_state_machine sampleBus sampleWorld appConnected
    paramsPlaying "Playing" (by decide) (by decide) (by decide) (by decide)
    (by decide) (Or.inr (by decide)) (by decide)

end VlcInhibit
